import Mathlib

/-!
Shallow embedding of the story engine in `GOL.py` (state model, scene
rendering, choice application, ending evaluation, serialization),
together with theorems checking the specification claims against it.

Modelling conventions:
- Python `int` is `Int` (Python integers are unbounded).
- Python `dict` values are insertion-ordered association lists; `get`,
  `setdefault` and assignment are modelled by `alistGet`,
  `alistSetdefault` and `alistSet` with first-occurrence lookup.
- The `flags` dict nominally maps to `bool` but the code stores the demon
  lord's name (a string) under the key `demon_lord_name`, so flag values
  are modelled by `FlagVal` (a boolean or a string) with Python
  truthiness as `FlagVal.truthy`.
- The seeded `random.Random` source is threaded explicitly as a stream of
  natural-number draws (`Rng`); `rngChoice` models `random.choice`,
  consuming exactly one draw.  A fixed seed fixes the stream.
-/

/-- Value stored in the `flags` dict: the code stores booleans, plus the
demon lord's name as a string under `demon_lord_name`. -/
inductive FlagVal where
  | b (v : Bool)
  | s (v : String)
  deriving DecidableEq

/-- Python truthiness of a flag value (`bool(v)`). -/
def FlagVal.truthy : FlagVal → Bool
  | .b v => v
  | .s v => v ≠ ""

/-- Python `str(v)` of a flag value, as used by f-string interpolation. -/
def FlagVal.toText : FlagVal → String
  | .b v => if v then "True" else "False"
  | .s v => v

/-- First-occurrence lookup in an insertion-ordered dict (`d.get(k)`). -/
def alistGet {α : Type} : List (String × α) → String → Option α
  | [], _ => none
  | p :: rest, k => if p.1 = k then some p.2 else alistGet rest k

/-- Python `d.setdefault(k, v)`: insert at the end only when absent. -/
def alistSetdefault {α : Type} (d : List (String × α)) (k : String) (v : α) :
    List (String × α) :=
  if (alistGet d k).isSome then d else d ++ [(k, v)]

/-- Python `d[k] = v`: overwrite in place, or append when absent. -/
def alistSet {α : Type} : List (String × α) → String → α → List (String × α)
  | [], k, v => [(k, v)]
  | p :: rest, k, v => if p.1 = k then (k, v) :: rest else p :: alistSet rest k v

/-- Truthiness of `st.flags.get(k)` / `st.flags.get(k, False)`:
absent keys are falsy. -/
def flagTrue (fl : List (String × FlagVal)) (k : String) : Bool :=
  match alistGet fl k with
  | some v => v.truthy
  | none => false

/-- The `StoryState` dataclass. -/
structure StoryState where
  name : String
  chapter : Int
  location : String
  health : Int
  power : Int
  morality : Int
  notoriety : Int
  trust_demon_lord : Int
  bond_demon_lord : Int
  inventory : List String
  flags : List (String × FlagVal)
  history : List String
  seed : Int
  deriving DecidableEq

/-- The dataclass field defaults (`StoryState()`). -/
def StoryState.default : StoryState :=
  { name := "Nameless"
    chapter := 0
    location := "Demon Forest"
    health := 80
    power := 20
    morality := 0
    notoriety := 0
    trust_demon_lord := 10
    bond_demon_lord := 0
    inventory := ["Torn Cloak", "Rusty Sword"]
    flags := []
    history := []
    seed := 0 }

/-- `StoryEngine.clamp(v, lo, hi) = max(lo, min(hi, v))`. -/
def clamp (v lo hi : Int) : Int := max lo (min hi v)

/-- Explicit pseudo-random source: the stream of draws produced by the
seeded `random.Random`.  Each `random.choice` consumes one draw. -/
abbrev Rng := List Nat

/-- `rng.choice(xs)`: pick the element indexed by the next draw, consuming
it.  An exhausted stream behaves as a constant draw of 0 (never reached
with a genuine infinite PRNG stream). -/
def rngChoice (r : Rng) (xs : List String) : String × Rng :=
  match r with
  | [] => (xs.getD 0 "", [])
  | n :: rest => (xs.getD (n % xs.length) "", rest)

/-- The fixed list of demon lord names in `intro_scene`. -/
def demon_names : List String :=
  ["Nyx", "Velaria", "Lilithe", "Morrigan", "Eresh", "Seraphine", "Astariel", "Noctra"]

/-- Result of rendering one scene: the mutated state, the narration
paragraph and the ordered (choice text, tag) list. -/
structure SceneR where
  state : StoryState
  text : String
  choices : List (String × String)
  deriving DecidableEq

/-- `StoryEngine.intro_scene`. -/
def intro_scene (r : Rng) (st0 : StoryState) : SceneR × Rng :=
  let st := { st0 with chapter := 1, location := "Demon Forest — Thornsfall Edge" }
  let fl := alistSetdefault st.flags "betrayed" (.b true)
  let fl := alistSetdefault fl "met_demon_lord" (.b true)
  let fl := alistSetdefault fl "allied" (.b false)
  let fl := alistSetdefault fl "vow_revenge" (.b false)
  let fl := alistSetdefault fl "seeking_truth" (.b true)
  let st := { st with
    flags := fl
    history := st.history ++
      ["Banished to the Demon Forest after betrayal by the kingdom and fellow heroes."] }
  -- dl_name = st.flags.get("demon_lord_name") or rng.choice(demon_names)
  -- (the right operand is evaluated, consuming a draw, only when the
  --  stored value is absent or falsy)
  let (dl, r1) : FlagVal × Rng :=
    match alistGet st.flags "demon_lord_name" with
    | some v =>
        if v.truthy then (v, r)
        else
          let (n, r1) := rngChoice r demon_names
          (FlagVal.s n, r1)
    | none =>
        let (n, r1) := rngChoice r demon_names
        (FlagVal.s n, r1)
  let st := { st with flags := alistSet st.flags "demon_lord_name" dl }
  let text :=
    "You awaken in briars and ash. The kingdom you died to protect has cast you out.\n" ++
    "Branches claw your cloak as you stumble through the Demon Forest. A presence watches.\n\n" ++
    "She steps from the gloom: the Demon Lord, a girl with eyes like eclipsed moons.\n" ++
    "\"I am " ++ dl.toText ++ ". Your light reeks of betrayal,\" she says. \"Why should I spare you?\""
  ({ state := st
     text := text
     choices :=
       [("Plead your case: you were framed and seek only the truth.", "intro_plead"),
        ("Swear vengeance: you\x27ll raze the kingdom that betrayed you.", "intro_vengeance"),
        ("Offer a pact: strength for strength—become uneasy allies.", "intro_pact"),
        ("Draw steel: if she wants blood, she\x27ll earn it.", "intro_fight")] }, r1)

/-- `st.flags.get("demon_lord_name", "the Demon Lord")` followed by
f-string interpolation. -/
def dlName (fl : List (String × FlagVal)) : String :=
  match alistGet fl "demon_lord_name" with
  | some v => v.toText
  | none => "the Demon Lord"

/-- `StoryEngine.scene_tense_camp`. -/
def scene_tense_camp (st : StoryState) : SceneR :=
  let dl := dlName st.flags
  { state := { st with location := "Forest Camp — Ember Clearing" }
    text :=
      "A small fire sputters beneath twisted pines. " ++ dl ++
      " watches you from across the flames.\nTrust flickers like kindling. The forest listens."
    choices :=
      [("Share a painful memory to earn her empathy.", "camp_confide"),
       ("Hone your blade in silence; let actions speak.", "camp_silence"),
       ("Probe her motives—why rule the demons at all?", "camp_probe"),
       ("Scout the perimeter; danger stalks the dark.", "camp_scout")] }

/-- `StoryEngine.scene_training`. -/
def scene_training (st : StoryState) : SceneR :=
  let dl := dlName st.flags
  { state := { st with location := "Obsidian Glade — Training Stones" }
    text :=
      "In the Obsidian Glade, " ++ dl ++ " tests you. Demonic sigils fracture the air.\n" ++
      "Power strains your scars as you push beyond mortal limits."
    choices :=
      [("Master a defensive ward to shield the weak.", "train_defense"),
       ("Channel wrath—strike harder, faster, crueler.", "train_wrath"),
       ("Synchronize with " ++ dl ++ "\x27s rhythm; trust the dance of blades.", "train_sync")] }

/-- `StoryEngine.scene_council`. -/
def scene_council (st : StoryState) : SceneR :=
  let dl := dlName st.flags
  { state := { st with location := "Eclipse Hall — Council of Cinders" }
    text :=
      dl ++ "\x27s lieutenants argue under lanterns filled with captured starlight.\n" ++
      "War or peace? Retaliation or secrecy? They seek your counsel."
    choices :=
      [("Advise diplomacy—seek proof of the kingdom\x27s treachery.", "council_diplomacy"),
       ("Plan raids on corrupt nobles and supply lines.", "council_raids"),
       ("Propose a secret parley with a sympathetic hero.", "council_parley")] }

/-- `StoryEngine.scene_oath_bond`. -/
def scene_oath_bond (st : StoryState) : SceneR :=
  let dl := dlName st.flags
  { state := { st with location := "Moonwell — Mirror of Vows" }
    text :=
      "Beside the Moonwell, " ++ dl ++
      " offers her hand. \"We choose each other—against crown and fate.\"\n" ++
      "The water reflects futures you barely recognize."
    choices :=
      [("Swear an oath of alliance.", "oath_sworn"),
       ("Hesitate—the cost of vows is always hidden.", "oath_hesitate"),
       ("Refuse—freedom above all.", "oath_refuse")] }

/-- `StoryEngine.scene_spy_report`. -/
def scene_spy_report (st : StoryState) : SceneR :=
  { state := { st with location := "Shadespine — Scout\x27s Path" }
    text :=
      "A demon scout kneels, breathless: the kingdom moves hunters into the forest.\n" ++
      "They bear your crest—bait for a public execution."
    choices :=
      [("Intercept and expose the ruse.", "spy_intercept"),
       ("Turn the ambush onto the hunters.", "spy_reverse"),
       ("Ignore; focus on power first.", "spy_ignore")] }

/-- `StoryEngine.scene_ambush`. -/
def scene_ambush (st : StoryState) : SceneR :=
  { state := { st with location := "Ravine Verge — Broken Bridge" }
    text :=
      "You spot royal scouts across a broken bridge, whispering your name like a curse.\n" ++
      "Their signal mirrors glint. A choice, sharp as shale."
    choices :=
      [("Strike from shadow—no witnesses.", "ambush_shadow"),
       ("Seize a scout alive for information.", "ambush_capture"),
       ("Let them flee; plant fear and rumor.", "ambush_letgo")] }

/-- `StoryEngine.scene_rescue`. -/
def scene_rescue (st : StoryState) : SceneR :=
  { state := { st with location := "Cairn Road — Bleak Mile" }
    text :=
      "A caravan of refugees stumbles under the weight of injustice. Bandits circle.\n" ++
      "You hear a child\x27s cough beneath the wind."
    choices :=
      [("Shield the caravan; take the blows for them.", "rescue_shield"),
       ("Outwit the bandits with a ruse.", "rescue_ruse"),
       ("Walk away. Mercy is a luxury.", "rescue_walk")] }

/-- `StoryEngine.scene_grim_bargain`. -/
def scene_grim_bargain (st : StoryState) : SceneR :=
  let dl := dlName st.flags
  { state := { st with location := "Thorn Altar — Price of Power" }
    text :=
      "A thorned altar hums with forbidden strength. " ++ dl ++ "\x27s gaze is unreadable.\n" ++
      "The altar grants might… and takes what you value most."
    choices :=
      [("Bleed for power: sacrifice a memory.", "bargain_memory"),
       ("Spare yourself—reject the altar.", "bargain_reject"),
       ("Offer the altar a token from your betrayers.", "bargain_token")] }

/-- `StoryEngine.scene_ruins`. -/
def scene_ruins (st : StoryState) : SceneR :=
  { state := { st with location := "Ancient Ruins — Vault of Mists" }
    text :=
      "Fog curls around cracked archways. Glyphs speak of heroes who burned their own ages ago.\n" ++
      "A vault door breathes cold secrets."
    choices :=
      [("Study the glyphs for hidden history.", "ruins_study"),
       ("Force the vault—whatever lies within is yours.", "ruins_force"),
       ("Leave a mark: a promise to return stronger.", "ruins_mark")] }

/-- `StoryEngine.scene_wild_hunt`. -/
def scene_wild_hunt (st : StoryState) : SceneR :=
  { state := { st with location := "Night Plains — The Wild Hunt" }
    text :=
      "Horns sound. Spectral riders rise like storm-surf, seeking a worthy quarry.\n" ++
      "They circle, inviting chase or challenge."
    choices :=
      [("Race with them; learn their paths.", "hunt_race"),
       ("Challenge the huntmaster to single combat.", "hunt_duel"),
       ("Hide and observe; knowledge first.", "hunt_hide")] }

/-- `StoryEngine.scene_whispers`. -/
def scene_whispers (st : StoryState) : SceneR :=
  { state := { st with location := "Whispering Trees — Root of Echoes" }
    text :=
      "Leaves speak in voices you once trusted. They tell different truths now.\n" ++
      "One whisper carries the name of a hero who betrayed you."
    choices :=
      [("Follow the whisper to its source.", "whisper_follow"),
       ("Silence the voices with a ward.", "whisper_ward"),
       ("Ask " ++ dlName st.flags ++ " to listen with you.", "whisper_together")] }

/-- The candidate archetype list built at the top of
`StoryEngine.generate_scene` for a non-introductory state, in the order
the code appends them. -/
def archetypes (st : StoryState) : List String :=
  let a : List String := []
  let a :=
    if flagTrue st.flags "met_demon_lord" = true then
      let a :=
        if 60 ≤ st.trust_demon_lord ∧ flagTrue st.flags "oath_bound" = false then
          a ++ ["oath_bond"]
        else a
      if 30 ≤ st.trust_demon_lord then a ++ ["council", "training"]
      else a ++ ["tense_camp"]
    else a
  let a := if flagTrue st.flags "vow_revenge" = true then a ++ ["spy_report", "ambush_king_scouts"] else a
  let a := if 40 ≤ st.morality then a ++ ["rescue_travelers"] else a
  let a := if st.morality ≤ -40 then a ++ ["grim_bargain"] else a
  a ++ ["mystic_ruins", "wild_hunt", "whispering_trees"]

/-- `StoryEngine.generate_scene`: the introductory scene at chapter 0,
otherwise a uniform draw from the candidate archetypes, dispatched to the
matching scene procedure (with `scene_tense_camp` as the dead fallback). -/
def generate_scene (r : Rng) (st : StoryState) : SceneR × Rng :=
  if st.chapter = 0 then intro_scene r st
  else
    let (chosen, r1) := rngChoice r (archetypes st)
    let sc :=
      if chosen = "oath_bond" then scene_oath_bond st
      else if chosen = "council" then scene_council st
      else if chosen = "training" then scene_training st
      else if chosen = "tense_camp" then scene_tense_camp st
      else if chosen = "spy_report" then scene_spy_report st
      else if chosen = "ambush_king_scouts" then scene_ambush st
      else if chosen = "rescue_travelers" then scene_rescue st
      else if chosen = "grim_bargain" then scene_grim_bargain st
      else if chosen = "mystic_ruins" then scene_ruins st
      else if chosen = "wild_hunt" then scene_wild_hunt st
      else if chosen = "whispering_trees" then scene_whispers st
      else scene_tense_camp st
    (sc, r1)

/-- `list(dict.fromkeys(xs))`: de-duplicate preserving first-seen order. -/
def dedupFirst (l : List String) : List String :=
  l.foldl (fun acc x => if x ∈ acc then acc else acc ++ [x]) []

/-- The fixed narration returned by `apply_choice` for a tag outside the
effect table. -/
def fallback_narration : String :=
  "Time moves, yet nothing decisive happens. Perhaps the next choice will cut deeper."

/-- The `intro_plead` branch of `apply_choice`: its exact attribute deltas,
flag and container effects, and narration. -/
def eff_intro_plead (st : StoryState) (dl : String) : StoryState × String :=
  ({ st with morality := clamp (st.morality + 10) (-100) 100,
             trust_demon_lord := clamp (st.trust_demon_lord + 15) 0 100,
             flags := alistSet st.flags "seeking_truth" (.b true) },
   "You speak plainly of betrayal. " ++ dl ++
    " studies the cracks in your voice and lowers her hand. \"Truth cuts deeper than any blade,\" she says.")

/-- The `intro_vengeance` branch of `apply_choice`: its exact attribute deltas,
flag and container effects, and narration. -/
def eff_intro_vengeance (st : StoryState) (dl : String) : StoryState × String :=
  ({ st with morality := clamp (st.morality - 10) (-100) 100,
             power := clamp (st.power + 10) 0 100,
             flags := alistSet st.flags "vow_revenge" (.b true),
             trust_demon_lord := clamp (st.trust_demon_lord + 5) 0 100 },
   "Vengeance burns like pitch. " ++ dl ++ " smiles—a small, dangerous thing. \"Then we understand each other.\"")

/-- The `intro_pact` branch of `apply_choice`: its exact attribute deltas,
flag and container effects, and narration. -/
def eff_intro_pact (st : StoryState) (dl : String) : StoryState × String :=
  ({ st with trust_demon_lord := clamp (st.trust_demon_lord + 20) 0 100,
             flags := alistSet st.flags "allied" (.b true) },
   "You offer terms, not supplication. " ++ dl ++ " clasps your wrist. \"We hunt different prey—but we can share the trail.\"")

/-- The `intro_fight` branch of `apply_choice`: its exact attribute deltas,
flag and container effects, and narration. -/
def eff_intro_fight (st : StoryState) (dl : String) : StoryState × String :=
  ({ st with health := clamp (st.health - 15) 0 100,
             power := clamp (st.power + 5) 0 100,
             trust_demon_lord := clamp (st.trust_demon_lord + 10) 0 100 },
   "Steel rings. You draw blood and pay in kind. " ++ dl ++ " laughs like thunder far away. \"Live, then. Earn the right to stand.\"")

/-- The `camp_confide` branch of `apply_choice`: its exact attribute deltas,
flag and container effects, and narration. -/
def eff_camp_confide (st : StoryState) (dl : String) : StoryState × String :=
  ({ st with morality := clamp (st.morality + 5) (-100) 100,
             trust_demon_lord := clamp (st.trust_demon_lord + 12) 0 100 },
   "Your memory is a splinter. You let it out. " ++ dl ++ " listens without mercy—without judgment. The fire warms, just a little.")

/-- The `camp_silence` branch of `apply_choice`: its exact attribute deltas,
flag and container effects, and narration. -/
def eff_camp_silence (st : StoryState) (_dl : String) : StoryState × String :=
  ({ st with power := clamp (st.power + 5) 0 100,
             trust_demon_lord := clamp (st.trust_demon_lord + 2) 0 100 },
   "You sharpen steel and silence. Sparks chart constellations no map has named.")

/-- The `camp_probe` branch of `apply_choice`: its exact attribute deltas,
flag and container effects, and narration. -/
def eff_camp_probe (st : StoryState) (dl : String) : StoryState × String :=
  ({ st with trust_demon_lord := clamp (st.trust_demon_lord - 3) 0 100,
             notoriety := clamp (st.notoriety + 5) 0 100 },
   "Questions are knives. " ++ dl ++ " answers some and turns aside others. You learn enough to be wary—and useful.")

/-- The `camp_scout` branch of `apply_choice`: its exact attribute deltas,
flag and container effects, and narration. -/
def eff_camp_scout (st : StoryState) (_dl : String) : StoryState × String :=
  ({ st with power := clamp (st.power + 3) 0 100,
             health := clamp (st.health + 3) 0 100 },
   "You pace the warding ring. Footprints. A bent reed. The forest is a chessboard and you are learning the moves.")

/-- The `train_defense` branch of `apply_choice`: its exact attribute deltas,
flag and container effects, and narration. -/
def eff_train_defense (st : StoryState) (_dl : String) : StoryState × String :=
  ({ st with power := clamp (st.power + 7) 0 100,
             morality := clamp (st.morality + 5) (-100) 100,
             trust_demon_lord := clamp (st.trust_demon_lord + 5) 0 100 },
   "Your ward blooms like a quiet star. It holds when claws descend. Somewhere, someone will live because of this.")

/-- The `train_wrath` branch of `apply_choice`: its exact attribute deltas,
flag and container effects, and narration. -/
def eff_train_wrath (st : StoryState) (_dl : String) : StoryState × String :=
  ({ st with power := clamp (st.power + 12) 0 100,
             morality := clamp (st.morality - 6) (-100) 100,
             notoriety := clamp (st.notoriety + 6) 0 100 },
   "You inhale the storm and exhale ruin. The stones remember your name as a crack.")

/-- The `train_sync` branch of `apply_choice`: its exact attribute deltas,
flag and container effects, and narration. -/
def eff_train_sync (st : StoryState) (dl : String) : StoryState × String :=
  ({ st with power := clamp (st.power + 6) 0 100,
             trust_demon_lord := clamp (st.trust_demon_lord + 10) 0 100,
             bond_demon_lord := clamp (st.bond_demon_lord + 1) 0 100 },
   "Step, strike, breathe—together. " ++ dl ++ "\x27s motion becomes a language you begin to read.")

/-- The `council_diplomacy` branch of `apply_choice`: its exact attribute deltas,
flag and container effects, and narration. -/
def eff_council_diplomacy (st : StoryState) (_dl : String) : StoryState × String :=
  ({ st with morality := clamp (st.morality + 8) (-100) 100,
             trust_demon_lord := clamp (st.trust_demon_lord + 6) 0 100,
             flags := alistSet st.flags "seeking_truth" (.b true) },
   "You chart a path of proof and patience. The hall quiets; even war can listen.")

/-- The `council_raids` branch of `apply_choice`: its exact attribute deltas,
flag and container effects, and narration. -/
def eff_council_raids (st : StoryState) (_dl : String) : StoryState × String :=
  ({ st with power := clamp (st.power + 8) 0 100,
             notoriety := clamp (st.notoriety + 10) 0 100,
             flags := alistSet st.flags "vow_revenge" (.b true) },
   "Targets line the map like sins. You thread a needle through them made of fire.")

/-- The `council_parley` branch of `apply_choice`: its exact attribute deltas,
flag and container effects, and narration. -/
def eff_council_parley (st : StoryState) (_dl : String) : StoryState × String :=
  ({ st with morality := clamp (st.morality + 3) (-100) 100,
             notoriety := clamp (st.notoriety + 3) 0 100,
             flags := alistSet st.flags "parley_set" (.b true) },
   "A secret parley—dangerous, delicate. If it holds, the story changes.")

/-- The `oath_sworn` branch of `apply_choice`: its exact attribute deltas,
flag and container effects, and narration. -/
def eff_oath_sworn (st : StoryState) (_dl : String) : StoryState × String :=
  ({ st with trust_demon_lord := clamp (st.trust_demon_lord + 20) 0 100,
             flags := alistSet st.flags "oath_bound" (.b true),
             bond_demon_lord := clamp (st.bond_demon_lord + 3) 0 100 },
   "You swear by fang and star. The Moonwell seals the promise with a chill that tastes like dawn.")

/-- The `oath_hesitate` branch of `apply_choice`: its exact attribute deltas,
flag and container effects, and narration. -/
def eff_oath_hesitate (st : StoryState) (_dl : String) : StoryState × String :=
  ({ st with trust_demon_lord := clamp (st.trust_demon_lord - 5) 0 100 },
   "You ask for time. The Moonwell reflects two strangers trying to be allies.")

/-- The `oath_refuse` branch of `apply_choice`: its exact attribute deltas,
flag and container effects, and narration. -/
def eff_oath_refuse (st : StoryState) (_dl : String) : StoryState × String :=
  ({ st with trust_demon_lord := clamp (st.trust_demon_lord - 12) 0 100,
             flags := alistSet st.flags "allied" (.b false) },
   "You step back from the brink. Freedom is a lonely country.")

/-- The `spy_intercept` branch of `apply_choice`: its exact attribute deltas,
flag and container effects, and narration. -/
def eff_spy_intercept (st : StoryState) (_dl : String) : StoryState × String :=
  ({ st with morality := clamp (st.morality + 4) (-100) 100,
             notoriety := clamp (st.notoriety + 5) 0 100 },
   "You unmask the trap and free the bait. Rumors begin to turn toward truth.")

/-- The `spy_reverse` branch of `apply_choice`: its exact attribute deltas,
flag and container effects, and narration. -/
def eff_spy_reverse (st : StoryState) (_dl : String) : StoryState × String :=
  ({ st with power := clamp (st.power + 7) 0 100,
             morality := clamp (st.morality - 2) (-100) 100,
             notoriety := clamp (st.notoriety + 9) 0 100 },
   "Hunters become the hunted. The forest keeps your secrets.")

/-- The `spy_ignore` branch of `apply_choice`: its exact attribute deltas,
flag and container effects, and narration. -/
def eff_spy_ignore (st : StoryState) (_dl : String) : StoryState × String :=
  ({ st with power := clamp (st.power + 4) 0 100,
             morality := clamp (st.morality - 4) (-100) 100 },
   "You let the game play on without you—for now.")

/-- The `ambush_shadow` branch of `apply_choice`: its exact attribute deltas,
flag and container effects, and narration. -/
def eff_ambush_shadow (st : StoryState) (_dl : String) : StoryState × String :=
  ({ st with power := clamp (st.power + 8) 0 100,
             morality := clamp (st.morality - 6) (-100) 100,
             notoriety := clamp (st.notoriety + 8) 0 100 },
   "No witnesses. No mercy. The bridge remembers only silence.")

/-- The `ambush_capture` branch of `apply_choice`: its exact attribute deltas,
flag and container effects, and narration. -/
def eff_ambush_capture (st : StoryState) (_dl : String) : StoryState × String :=
  ({ st with morality := clamp (st.morality + 6) (-100) 100,
             notoriety := clamp (st.notoriety + 4) 0 100 },
   "Under your blade, a scout chooses life—and answers. Names spill like beads from a torn chain.")

/-- The `ambush_letgo` branch of `apply_choice`: its exact attribute deltas,
flag and container effects, and narration. -/
def eff_ambush_letgo (st : StoryState) (_dl : String) : StoryState × String :=
  ({ st with morality := clamp (st.morality + 2) (-100) 100,
             notoriety := clamp (st.notoriety + 6) 0 100 },
   "Mercy travels faster than hoofbeats. Fear travels faster still.")

/-- The `rescue_shield` branch of `apply_choice`: its exact attribute deltas,
flag and container effects, and narration. -/
def eff_rescue_shield (st : StoryState) (_dl : String) : StoryState × String :=
  ({ st with morality := clamp (st.morality + 10) (-100) 100,
             health := clamp (st.health - 8) 0 100,
             trust_demon_lord := clamp (st.trust_demon_lord + 4) 0 100 },
   "You take the blows others could not bear. A child\x27s cough becomes a laugh.")

/-- The `rescue_ruse` branch of `apply_choice`: its exact attribute deltas,
flag and container effects, and narration. -/
def eff_rescue_ruse (st : StoryState) (_dl : String) : StoryState × String :=
  ({ st with morality := clamp (st.morality + 6) (-100) 100,
             power := clamp (st.power + 3) 0 100 },
   "Illusions, footprints, a staged cry—bandits chase ghosts while the caravan slips free.")

/-- The `rescue_walk` branch of `apply_choice`: its exact attribute deltas,
flag and container effects, and narration. -/
def eff_rescue_walk (st : StoryState) (_dl : String) : StoryState × String :=
  ({ st with morality := clamp (st.morality - 10) (-100) 100,
             power := clamp (st.power + 4) 0 100,
             notoriety := clamp (st.notoriety + 5) 0 100 },
   "You turn away. The road learns your name without deciding if it loves you.")

/-- The `bargain_memory` branch of `apply_choice`: its exact attribute deltas,
flag and container effects, and narration. -/
def eff_bargain_memory (st : StoryState) (_dl : String) : StoryState × String :=
  ({ st with power := clamp (st.power + 15) 0 100,
             morality := clamp (st.morality - 8) (-100) 100,
             history := st.history ++ ["You traded a cherished memory at the Thorn Altar."] },
   "You give the altar a memory of home. Power rushes in to fill the hollow it leaves.")

/-- The `bargain_reject` branch of `apply_choice`: its exact attribute deltas,
flag and container effects, and narration. -/
def eff_bargain_reject (st : StoryState) (_dl : String) : StoryState × String :=
  ({ st with morality := clamp (st.morality + 5) (-100) 100,
             trust_demon_lord := clamp (st.trust_demon_lord + 3) 0 100 },
   "You walk away from easy strength. The altar hums, disappointed.")

/-- The `bargain_token` branch of `apply_choice`: its exact attribute deltas,
flag and container effects, and narration. -/
def eff_bargain_token (st : StoryState) (_dl : String) : StoryState × String :=
  ({ st with power := clamp (st.power + 10) 0 100,
             notoriety := clamp (st.notoriety + 7) 0 100 },
   "You place a betrayer\x27s token on the altar. The thorns drink deep and answer with power.")

/-- The `ruins_study` branch of `apply_choice`: its exact attribute deltas,
flag and container effects, and narration. -/
def eff_ruins_study (st : StoryState) (_dl : String) : StoryState × String :=
  ({ st with power := clamp (st.power + 4) 0 100,
             morality := clamp (st.morality + 2) (-100) 100,
             history := st.history ++ ["Discovered records of prior heroes consumed by their crowns."] },
   "Glyphs confess: heroes burned an age to keep a throne warm. Truth is an ember you pocket.")

/-- The `ruins_force` branch of `apply_choice`: its exact attribute deltas,
flag and container effects, and narration. -/
def eff_ruins_force (st : StoryState) (_dl : String) : StoryState × String :=
  ({ st with power := clamp (st.power + 8) 0 100,
             morality := clamp (st.morality - 4) (-100) 100,
             inventory := dedupFirst (st.inventory ++ ["Vault Relic"]) },
   "The vault yields with a scream of stone. Inside waits a relic that knows your pulse.")

/-- The `ruins_mark` branch of `apply_choice`: its exact attribute deltas,
flag and container effects, and narration. -/
def eff_ruins_mark (st : StoryState) (_dl : String) : StoryState × String :=
  ({ st with morality := clamp (st.morality + 1) (-100) 100,
             trust_demon_lord := clamp (st.trust_demon_lord + 2) 0 100 },
   "You leave a mark, not a wound. Even ruins deserve a future.")

/-- The `hunt_race` branch of `apply_choice`: its exact attribute deltas,
flag and container effects, and narration. -/
def eff_hunt_race (st : StoryState) (_dl : String) : StoryState × String :=
  ({ st with power := clamp (st.power + 5) 0 100,
             notoriety := clamp (st.notoriety + 3) 0 100 },
   "You run with ghosts until your lungs are bells. They teach you shortcuts through moonlight.")

/-- The `hunt_duel` branch of `apply_choice`: its exact attribute deltas,
flag and container effects, and narration. -/
def eff_hunt_duel (st : StoryState) (_dl : String) : StoryState × String :=
  ({ st with power := clamp (st.power + 10) 0 100,
             health := clamp (st.health - 6) 0 100,
             notoriety := clamp (st.notoriety + 6) 0 100 },
   "Steel rings against antler and oath. You win a scar and a salute.")

/-- The `hunt_hide` branch of `apply_choice`: its exact attribute deltas,
flag and container effects, and narration. -/
def eff_hunt_hide (st : StoryState) (_dl : String) : StoryState × String :=
  ({ st with morality := clamp (st.morality + 2) (-100) 100 },
   "You watch unseen as the Wild Hunt redraws the night\x27s borders.")

/-- The `whisper_follow` branch of `apply_choice`: its exact attribute deltas,
flag and container effects, and narration. -/
def eff_whisper_follow (st : StoryState) (_dl : String) : StoryState × String :=
  ({ st with notoriety := clamp (st.notoriety + 4) 0 100,
             flags := alistSet st.flags "betrayer_trail" (.b true) },
   "The whisper leads to a sigil cut in bark: a hero\x27s mark. The trail warms under your gaze.")

/-- The `whisper_ward` branch of `apply_choice`: its exact attribute deltas,
flag and container effects, and narration. -/
def eff_whisper_ward (st : StoryState) (_dl : String) : StoryState × String :=
  ({ st with power := clamp (st.power + 3) 0 100,
             morality := clamp (st.morality + 1) (-100) 100 },
   "You hush the forest with a ward that tastes like peppermint and thunder.")

/-- The `whisper_together` branch of `apply_choice`: its exact attribute deltas,
flag and container effects, and narration. -/
def eff_whisper_together (st : StoryState) (dl : String) : StoryState × String :=
  ({ st with trust_demon_lord := clamp (st.trust_demon_lord + 8) 0 100,
             bond_demon_lord := clamp (st.bond_demon_lord + 1) 0 100 },
   "You and " ++ dl ++ " listen as one. The voices braid into a map only two can read.")

/-- The tag dispatch of `apply_choice` (the if-chain of the source),
applied to the already chapter-incremented state and to the interpolated
demon-lord name. -/
def choice_dispatch (st : StoryState) (dl : String) (tag : String) : StoryState × String :=
  if tag = "intro_plead" then eff_intro_plead st dl
  else if tag = "intro_vengeance" then eff_intro_vengeance st dl
  else if tag = "intro_pact" then eff_intro_pact st dl
  else if tag = "intro_fight" then eff_intro_fight st dl
  else if tag = "camp_confide" then eff_camp_confide st dl
  else if tag = "camp_silence" then eff_camp_silence st dl
  else if tag = "camp_probe" then eff_camp_probe st dl
  else if tag = "camp_scout" then eff_camp_scout st dl
  else if tag = "train_defense" then eff_train_defense st dl
  else if tag = "train_wrath" then eff_train_wrath st dl
  else if tag = "train_sync" then eff_train_sync st dl
  else if tag = "council_diplomacy" then eff_council_diplomacy st dl
  else if tag = "council_raids" then eff_council_raids st dl
  else if tag = "council_parley" then eff_council_parley st dl
  else if tag = "oath_sworn" then eff_oath_sworn st dl
  else if tag = "oath_hesitate" then eff_oath_hesitate st dl
  else if tag = "oath_refuse" then eff_oath_refuse st dl
  else if tag = "spy_intercept" then eff_spy_intercept st dl
  else if tag = "spy_reverse" then eff_spy_reverse st dl
  else if tag = "spy_ignore" then eff_spy_ignore st dl
  else if tag = "ambush_shadow" then eff_ambush_shadow st dl
  else if tag = "ambush_capture" then eff_ambush_capture st dl
  else if tag = "ambush_letgo" then eff_ambush_letgo st dl
  else if tag = "rescue_shield" then eff_rescue_shield st dl
  else if tag = "rescue_ruse" then eff_rescue_ruse st dl
  else if tag = "rescue_walk" then eff_rescue_walk st dl
  else if tag = "bargain_memory" then eff_bargain_memory st dl
  else if tag = "bargain_reject" then eff_bargain_reject st dl
  else if tag = "bargain_token" then eff_bargain_token st dl
  else if tag = "ruins_study" then eff_ruins_study st dl
  else if tag = "ruins_force" then eff_ruins_force st dl
  else if tag = "ruins_mark" then eff_ruins_mark st dl
  else if tag = "hunt_race" then eff_hunt_race st dl
  else if tag = "hunt_duel" then eff_hunt_duel st dl
  else if tag = "hunt_hide" then eff_hunt_hide st dl
  else if tag = "whisper_follow" then eff_whisper_follow st dl
  else if tag = "whisper_ward" then eff_whisper_ward st dl
  else if tag = "whisper_together" then eff_whisper_together st dl
  else (st, fallback_narration)

/-- `StoryEngine.apply_choice`: interpolate the demon-lord name,
increment the chapter, then run the tag dispatch; unknown tags fall
through to the fixed no-op narration. -/
def apply_choice (st0 : StoryState) (tag : String) : StoryState × String :=
  choice_dispatch { st0 with chapter := st0.chapter + 1 } (dlName st0.flags) tag

/-- The domain of the tag→effect table in `apply_choice` (every tag with
an explicit branch); anything else hits the fallback. -/
def knownTags : List String :=
  ["intro_plead", "intro_vengeance", "intro_pact", "intro_fight",
   "camp_confide", "camp_silence", "camp_probe", "camp_scout",
   "train_defense", "train_wrath", "train_sync",
   "council_diplomacy", "council_raids", "council_parley",
   "oath_sworn", "oath_hesitate", "oath_refuse",
   "spy_intercept", "spy_reverse", "spy_ignore",
   "ambush_shadow", "ambush_capture", "ambush_letgo",
   "rescue_shield", "rescue_ruse", "rescue_walk",
   "bargain_memory", "bargain_reject", "bargain_token",
   "ruins_study", "ruins_force", "ruins_mark",
   "hunt_race", "hunt_duel", "hunt_hide",
   "whisper_follow", "whisper_ward", "whisper_together"]

/-- Fold `apply_choice` over a sequence of tags, keeping the state. -/
def applyChoices (st : StoryState) (tags : List String) : StoryState :=
  tags.foldl (fun s t => (apply_choice s t).1) st

/-- `StoryEngine.check_ending`: the five predicates in priority order,
first match wins. -/
def check_ending (st : StoryState) : Option String :=
  let dl := dlName st.flags
  if st.health ≤ 0 then
    some "Your story ends beneath black boughs. Even the forest bows its head."
  else if 80 ≤ st.trust_demon_lord ∧ 70 ≤ st.power ∧ flagTrue st.flags "oath_bound" = true then
    some ("Side by side with " ++ dl ++
      ", you confront the crown. Proof and power make a quiet revolution.\n" ++
      "The heroes who betrayed you kneel, not to force, but to truth. The forest grows less afraid.")
  else if 80 ≤ st.notoriety ∧ 80 ≤ st.power ∧ st.morality ≤ -30 then
    some "Feared and unstoppable, you become a storm that keeps its own counsel. Kings learn to read the sky."
  else if 80 ≤ st.morality ∧ 50 ≤ st.power then
    some "You choose to guard rather than rule. Roads are safer where your shadow falls."
  else if 30 ≤ st.chapter ∧ st.trust_demon_lord < 40 ∧ st.notoriety < 40 then
    some ("Years pass like leaves. Your name fades, but the people you saved remember.\n" ++
      "Not all legends need thrones.")
  else none

/-- The fixed death-ending narration (priority 1 in `check_ending`). -/
def death_ending : String :=
  "Your story ends beneath black boughs. Even the forest bows its head."

/-- Primitive JSON-able values occurring in a serialized `StoryState`
(the payload of `asdict`). -/
inductive JVal where
  | i (n : Int)
  | s (t : String)
  | ls (l : List String)
  | fl (f : List (String × FlagVal))
  deriving DecidableEq

/-- `StoryState.to_dict` (`dataclasses.asdict`): the fields in
declaration order. -/
def to_dict (st : StoryState) : List (String × JVal) :=
  [("name", .s st.name),
   ("chapter", .i st.chapter),
   ("location", .s st.location),
   ("health", .i st.health),
   ("power", .i st.power),
   ("morality", .i st.morality),
   ("notoriety", .i st.notoriety),
   ("trust_demon_lord", .i st.trust_demon_lord),
   ("bond_demon_lord", .i st.bond_demon_lord),
   ("inventory", .ls st.inventory),
   ("flags", .fl st.flags),
   ("history", .ls st.history),
   ("seed", .i st.seed)]

/-- The field names of the dataclass, in declaration order. -/
def stateFields : List String :=
  ["name", "chapter", "location", "health", "power", "morality", "notoriety",
   "trust_demon_lord", "bond_demon_lord", "inventory", "flags", "history", "seed"]

/-- `list(v)` as applied in `from_dict`.  Python `list()` accepts any
iterable; only the list shape occurs for these fields, and the model
reports the other shapes as the type error Python would raise for the
non-iterable ones. -/
def pyListStr : JVal → Except String (List String)
  | .ls l => .ok l
  | _ => .error "TypeError: value is not a list"

/-- `dict(v)` as applied in `from_dict`, restricted as in `pyListStr`. -/
def pyDictFlags : JVal → Except String (List (String × FlagVal))
  | .fl f => .ok f
  | _ => .error "TypeError: value is not a dict"

/-- Extraction of a string-typed constructor argument.  The Python
dataclass performs no runtime type validation; the typed model requires
the declared shape and reports a mismatch as an error. -/
def asStr : Option JVal → Except String String
  | some (.s t) => .ok t
  | _ => .error "TypeError: expected str"

/-- Extraction of an int-typed constructor argument (see `asStr`). -/
def asInt : Option JVal → Except String Int
  | some (.i n) => .ok n
  | _ => .error "TypeError: expected int"

/-- Extraction of a list-typed constructor argument (see `asStr`). -/
def asListStr : Option JVal → Except String (List String)
  | some (.ls l) => .ok l
  | _ => .error "TypeError: expected list"

/-- Extraction of a dict-typed constructor argument (see `asStr`). -/
def asFlags : Option JVal → Except String (List (String × FlagVal))
  | some (.fl f) => .ok f
  | _ => .error "TypeError: expected dict"

/-- `StoryState.from_dict`: fill every missing field from a
default-constructed record (`d.setdefault(k, v)` over the defaults),
re-materialize the three container fields as fresh containers, then call
the constructor — which, as in Python, rejects any key that is not a
dataclass field (`TypeError: unexpected keyword argument`). -/
def from_dict (d0 : List (String × JVal)) : Except String StoryState := do
  let d := (to_dict StoryState.default).foldl
    (fun acc kv => alistSetdefault acc kv.1 kv.2) d0
  let inv ← pyListStr ((alistGet d "inventory").getD (.ls []))
  let fl ← pyDictFlags ((alistGet d "flags").getD (.fl []))
  let hist ← pyListStr ((alistGet d "history").getD (.ls []))
  let d := alistSet d "inventory" (.ls inv)
  let d := alistSet d "flags" (.fl fl)
  let d := alistSet d "history" (.ls hist)
  if d.all (fun p => stateFields.contains p.1) then do
    let name ← asStr (alistGet d "name")
    let chapter ← asInt (alistGet d "chapter")
    let location ← asStr (alistGet d "location")
    let health ← asInt (alistGet d "health")
    let power ← asInt (alistGet d "power")
    let morality ← asInt (alistGet d "morality")
    let notoriety ← asInt (alistGet d "notoriety")
    let trust ← asInt (alistGet d "trust_demon_lord")
    let bond ← asInt (alistGet d "bond_demon_lord")
    let inv2 ← asListStr (alistGet d "inventory")
    let fl2 ← asFlags (alistGet d "flags")
    let hist2 ← asListStr (alistGet d "history")
    let seed ← asInt (alistGet d "seed")
    return { name := name, chapter := chapter, location := location,
             health := health, power := power, morality := morality,
             notoriety := notoriety, trust_demon_lord := trust,
             bond_demon_lord := bond, inventory := inv2, flags := fl2,
             history := hist2, seed := seed }
  else
    .error "TypeError: unexpected keyword argument"

/-- Spec-side reader of a string-typed field: the stored value when
present and of the declared shape, otherwise the given default. -/
def jStr (o : Option JVal) (dflt : String) : String :=
  match o with
  | some (.s t) => t
  | _ => dflt

/-- Spec-side reader of an int-typed field (see `jStr`). -/
def jInt (o : Option JVal) (dflt : Int) : Int :=
  match o with
  | some (.i n) => n
  | _ => dflt

/-- Spec-side reader of a string-list-typed field (see `jStr`). -/
def jList (o : Option JVal) (dflt : List String) : List String :=
  match o with
  | some (.ls l) => l
  | _ => dflt

/-- Spec-side reader of the flags field (see `jStr`). -/
def jFlags (o : Option JVal) (dflt : List (String × FlagVal)) : List (String × FlagVal) :=
  match o with
  | some (.fl f) => f
  | _ => dflt

/-- Modelled from the spec (deserialization contract of §3/§4.1): each
record field takes the value stored in the mapping when present (and of
the declared shape), and the default from a default-constructed record
otherwise, with container fields rebuilt.  Used to compare `from_dict`
against the spec's words. -/
def spec_from_dict (d : List (String × JVal)) : StoryState :=
  { name := jStr (alistGet d "name") StoryState.default.name
    chapter := jInt (alistGet d "chapter") StoryState.default.chapter
    location := jStr (alistGet d "location") StoryState.default.location
    health := jInt (alistGet d "health") StoryState.default.health
    power := jInt (alistGet d "power") StoryState.default.power
    morality := jInt (alistGet d "morality") StoryState.default.morality
    notoriety := jInt (alistGet d "notoriety") StoryState.default.notoriety
    trust_demon_lord := jInt (alistGet d "trust_demon_lord") StoryState.default.trust_demon_lord
    bond_demon_lord := jInt (alistGet d "bond_demon_lord") StoryState.default.bond_demon_lord
    inventory := jList (alistGet d "inventory") StoryState.default.inventory
    flags := jFlags (alistGet d "flags") StoryState.default.flags
    history := jList (alistGet d "history") StoryState.default.history
    seed := jInt (alistGet d "seed") StoryState.default.seed }

/-- Shape tester: is the value an int? -/
def JVal.isI : JVal → Bool
  | .i _ => true
  | _ => false

/-- Shape tester: is the value a string? -/
def JVal.isS : JVal → Bool
  | .s _ => true
  | _ => false

/-- Shape tester: is the value a list of strings? -/
def JVal.isLs : JVal → Bool
  | .ls _ => true
  | _ => false

/-- Shape tester: is the value a flags dict? -/
def JVal.isFl : JVal → Bool
  | .fl _ => true
  | _ => false

/-- Whether a serialized value has the declared shape of the named field. -/
def fieldTypeOk (k : String) (v : JVal) : Bool :=
  if k = "name" then v.isS
  else if k = "chapter" then v.isI
  else if k = "location" then v.isS
  else if k = "health" then v.isI
  else if k = "power" then v.isI
  else if k = "morality" then v.isI
  else if k = "notoriety" then v.isI
  else if k = "trust_demon_lord" then v.isI
  else if k = "bond_demon_lord" then v.isI
  else if k = "inventory" then v.isLs
  else if k = "flags" then v.isFl
  else if k = "history" then v.isLs
  else if k = "seed" then v.isI
  else false

/-- The documented closed intervals of the bounded integer attributes. -/
def boundsInv (st : StoryState) : Prop :=
  0 ≤ st.health ∧ st.health ≤ 100 ∧
  0 ≤ st.power ∧ st.power ≤ 100 ∧
  -100 ≤ st.morality ∧ st.morality ≤ 100 ∧
  0 ≤ st.notoriety ∧ st.notoriety ≤ 100 ∧
  0 ≤ st.trust_demon_lord ∧ st.trust_demon_lord ≤ 100 ∧
  0 ≤ st.bond_demon_lord ∧ st.bond_demon_lord ≤ 100

instance (st : StoryState) : Decidable (boundsInv st) := by
  unfold boundsInv; infer_instance

/-- A default-constructed state carrying seed 42 (`StoryState(seed=42)`). -/
def init42 : StoryState := { StoryState.default with seed := 42 }

/-- One full run of the engine: for each tag in sequence, render the
current scene, then apply the tag; collect every produced string
(scene paragraphs and choice narrations, in order). -/
def runStory : Rng → StoryState → List String → Rng × StoryState × List String
  | r, s, [] => (r, s, [])
  | r, s, tag :: rest =>
    let (sc, r1) := generate_scene r s
    let (s1, narr) := apply_choice sc.state tag
    let (r2, s2, log) := runStory r1 s1 rest
    (r2, s2, sc.text :: narr :: log)

/-- The spec's eligibility table (§4.2) taken at its word: the union of
its rows in table order, each row's predicate evaluated independently
over the state.  This is the comparison definition for the refinement
claim about the candidate archetype list built by scene rendering
(`archetypes`). -/
def spec_eligible_table (st : StoryState) : List String :=
  (if flagTrue st.flags "met_demon_lord" = true ∧ 60 ≤ st.trust_demon_lord ∧
      flagTrue st.flags "oath_bound" = false then ["oath_bond"] else []) ++
  (if flagTrue st.flags "met_demon_lord" = true ∧ 30 ≤ st.trust_demon_lord then
      ["council", "training"] else []) ++
  (if flagTrue st.flags "met_demon_lord" = true ∧ st.trust_demon_lord < 30 then
      ["tense_camp"] else []) ++
  (if flagTrue st.flags "vow_revenge" = true then
      ["spy_report", "ambush_king_scouts"] else []) ++
  (if 40 ≤ st.morality then ["rescue_travelers"] else []) ++
  (if st.morality ≤ -40 then ["grim_bargain"] else []) ++
  ["mystic_ruins", "wild_hunt", "whispering_trees"]

set_option maxHeartbeats 1600000 in
theorem choice_dispatch_chapter (st : StoryState) (dl tag : String) :
    ((choice_dispatch st dl tag).1).chapter = st.chapter := by
  unfold choice_dispatch
  simp only [eff_intro_plead, eff_intro_vengeance, eff_intro_pact, eff_intro_fight, eff_camp_confide, eff_camp_silence, eff_camp_probe, eff_camp_scout, eff_train_defense, eff_train_wrath, eff_train_sync, eff_council_diplomacy, eff_council_raids, eff_council_parley, eff_oath_sworn, eff_oath_hesitate, eff_oath_refuse, eff_spy_intercept, eff_spy_reverse, eff_spy_ignore, eff_ambush_shadow, eff_ambush_capture, eff_ambush_letgo, eff_rescue_shield, eff_rescue_ruse, eff_rescue_walk, eff_bargain_memory, eff_bargain_reject, eff_bargain_token, eff_ruins_study, eff_ruins_force, eff_ruins_mark, eff_hunt_race, eff_hunt_duel, eff_hunt_hide, eff_whisper_follow, eff_whisper_ward, eff_whisper_together,
    apply_ite (fun p : StoryState × String => p.1.chapter), ite_self]

theorem apply_choice_chapter (st : StoryState) (tag : String) :
    ((apply_choice st tag).1).chapter = st.chapter + 1 := by
  unfold apply_choice
  rw [choice_dispatch_chapter]

set_option maxHeartbeats 1600000 in
theorem choice_dispatch_bounds {st : StoryState} (h : boundsInv st) (dl tag : String) :
    boundsInv ((choice_dispatch st dl tag).1) := by
  unfold boundsInv at h ⊢
  unfold choice_dispatch
  simp only [eff_intro_plead, eff_intro_vengeance, eff_intro_pact, eff_intro_fight, eff_camp_confide, eff_camp_silence, eff_camp_probe, eff_camp_scout, eff_train_defense, eff_train_wrath, eff_train_sync, eff_council_diplomacy, eff_council_raids, eff_council_parley, eff_oath_sworn, eff_oath_hesitate, eff_oath_refuse, eff_spy_intercept, eff_spy_reverse, eff_spy_ignore, eff_ambush_shadow, eff_ambush_capture, eff_ambush_letgo, eff_rescue_shield, eff_rescue_ruse, eff_rescue_walk, eff_bargain_memory, eff_bargain_reject, eff_bargain_token, eff_ruins_study, eff_ruins_force, eff_ruins_mark, eff_hunt_race, eff_hunt_duel, eff_hunt_hide, eff_whisper_follow, eff_whisper_ward, eff_whisper_together,
    apply_ite (fun p : StoryState × String => p.1),
    apply_ite (fun s : StoryState => s.health),
    apply_ite (fun s : StoryState => s.power),
    apply_ite (fun s : StoryState => s.morality),
    apply_ite (fun s : StoryState => s.notoriety),
    apply_ite (fun s : StoryState => s.trust_demon_lord),
    apply_ite (fun s : StoryState => s.bond_demon_lord),
    clamp]
  omega

theorem apply_choice_bounds {st : StoryState} (h : boundsInv st) (tag : String) :
    boundsInv ((apply_choice st tag).1) := by
  unfold apply_choice
  apply choice_dispatch_bounds
  unfold boundsInv at h ⊢
  dsimp only
  omega

theorem applyChoices_bounds {st : StoryState} (h : boundsInv st)
    (tags : List String) : boundsInv (applyChoices st tags) := by
  induction tags generalizing st with
  | nil => exact h
  | cons t ts ih => exact ih (apply_choice_bounds h t)

theorem applyChoices_chapter (st : StoryState) (tags : List String) :
    (applyChoices st tags).chapter = st.chapter + tags.length := by
  induction tags generalizing st with
  | nil => simp [applyChoices]
  | cons t ts ih =>
    have h1 : applyChoices st (t :: ts) = applyChoices ((apply_choice st t).1) ts := rfl
    rw [h1, ih, apply_choice_chapter]
    simp only [List.length_cons]
    push_cast
    omega

theorem choice_dispatch_unknown (st : StoryState) (dl tag : String)
    (h : tag ∉ knownTags) : choice_dispatch st dl tag = (st, fallback_narration) := by
  unfold choice_dispatch
  repeat rw [if_neg (by rintro rfl; exact h (by decide))]

/-- C1: starting from the default record (and hence from any reachable
state), every bounded integer attribute — health, power, notoriety,
trust_demon_lord, bond_demon_lord in [0,100] and morality in [-100,100] —
remains within its documented closed interval after each `apply_choice`,
for every sequence of tags (known or unknown) and after every prefix of
that sequence. -/
theorem c1_bounded_attributes :
    boundsInv StoryState.default ∧
    ∀ st : StoryState, boundsInv st →
      (∀ tag : String, boundsInv ((apply_choice st tag).1)) ∧
      (∀ (tags : List String) (i : Nat), boundsInv (applyChoices st (tags.take i))) :=
  ⟨by decide, fun _st h =>
    ⟨fun tag => apply_choice_bounds h tag,
     fun tags i => applyChoices_bounds h (tags.take i)⟩⟩

/-- Witness for C1 at the default state and a concrete tag sequence
containing an unknown tag. -/
theorem c1_bounded_attributes_witness :
    boundsInv (applyChoices StoryState.default (["intro_fight", "mystery"].take 2)) :=
  (c1_bounded_attributes.2 StoryState.default (by decide)).2 ["intro_fight", "mystery"] 2

/-- C3: `check_ending` evaluates its five predicates in fixed priority
order with first match winning: any state meeting both the death
condition (health ≤ 0) and the alliance condition (trust ≥ 80, power ≥
70, `oath_bound`) yields the death ending, and any state meeting none of
the five conditions yields no ending. -/
theorem c3_ending_priority :
    ∀ st : StoryState,
      (st.health ≤ 0 →
        80 ≤ st.trust_demon_lord ∧ 70 ≤ st.power ∧ flagTrue st.flags "oath_bound" = true →
        check_ending st = some death_ending) ∧
      (¬ st.health ≤ 0 →
        ¬(80 ≤ st.trust_demon_lord ∧ 70 ≤ st.power ∧ flagTrue st.flags "oath_bound" = true) →
        ¬(80 ≤ st.notoriety ∧ 80 ≤ st.power ∧ st.morality ≤ -30) →
        ¬(80 ≤ st.morality ∧ 50 ≤ st.power) →
        ¬(30 ≤ st.chapter ∧ st.trust_demon_lord < 40 ∧ st.notoriety < 40) →
        check_ending st = none) := by
  intro st
  constructor
  · intro h _
    simp only [check_ending]
    rw [if_pos h]
    rfl
  · intro h1 h2 h3 h4 h5
    simp only [check_ending]
    rw [if_neg h1, if_neg h2, if_neg h3, if_neg h4, if_neg h5]

/-- Witness for C3: a state meeting both the death and alliance
conditions yields the death ending; the default state meets none of the
five conditions and yields no ending. -/
theorem c3_ending_priority_witness :
    check_ending { StoryState.default with
                     health := 0, trust_demon_lord := 80, power := 70,
                     flags := [("oath_bound", FlagVal.b true)] } = some death_ending ∧
    check_ending StoryState.default = none :=
  ⟨(c3_ending_priority _).1 (by decide) (by decide),
   (c3_ending_priority _).2 (by decide) (by decide) (by decide) (by decide) (by decide)⟩

/-- C4: for every state and every tag outside the effect table,
`apply_choice` returns the fixed no-op fallback narration and changes
nothing except the chapter increment — attributes, flags, inventory and
history are untouched. -/
theorem c4_unknown_tag_noop (st : StoryState) (tag : String) (h : tag ∉ knownTags) :
    apply_choice st tag = ({ st with chapter := st.chapter + 1 }, fallback_narration) := by
  unfold apply_choice
  rw [choice_dispatch_unknown _ _ _ h]

/-- Witness for C4 at the default state and the unknown tag `mystery`. -/
theorem c4_unknown_tag_noop_witness :
    apply_choice StoryState.default "mystery" =
      ({ StoryState.default with chapter := StoryState.default.chapter + 1 },
       fallback_narration) :=
  c4_unknown_tag_noop StoryState.default "mystery" (by decide)

/-- C5: `apply_choice` increments the chapter by exactly 1 for every tag
(including unknown ones); over a sequence the chapter grows by exactly
the number of applied choices, and is non-decreasing along prefixes. -/
theorem c5_chapter_increment :
    ∀ (st : StoryState) (tag : String) (tags : List String),
      ((apply_choice st tag).1).chapter = st.chapter + 1 ∧
      (applyChoices st tags).chapter = st.chapter + tags.length ∧
      ∀ i j : Nat, i ≤ j →
        (applyChoices st (tags.take i)).chapter ≤ (applyChoices st (tags.take j)).chapter := by
  intro st tag tags
  refine ⟨apply_choice_chapter st tag, applyChoices_chapter st tags, fun i j hij => ?_⟩
  rw [applyChoices_chapter, applyChoices_chapter]
  simp only [List.length_take]
  push_cast
  omega

/-- Witness for C5: chapter after one applied choice is at most chapter
after two, at the default state. -/
theorem c5_chapter_increment_witness :
    (applyChoices StoryState.default (["intro_pact", "camp_scout"].take 1)).chapter ≤
      (applyChoices StoryState.default (["intro_pact", "camp_scout"].take 2)).chapter :=
  (c5_chapter_increment StoryState.default "intro_pact" ["intro_pact", "camp_scout"]).2.2
    1 2 (by decide)

/-- C7: the engine is deterministic — with the pseudo-random source
threaded as explicit state, two runs from equal seeds (streams), equal
states and equal tag sequences produce identical scene texts, identical
narrations and identical final states. -/
theorem c7_determinism :
    ∀ (r1 r2 : Rng) (s1 s2 : StoryState) (tags1 tags2 : List String),
      r1 = r2 → s1 = s2 → tags1 = tags2 →
      runStory r1 s1 tags1 = runStory r2 s2 tags2 := by
  intro r1 r2 s1 s2 t1 t2 hr hs ht
  rw [hr, hs, ht]

/-- Witness for C7 at a concrete stream, state and tag sequence. -/
theorem c7_determinism_witness :
    runStory [0] StoryState.default ["intro_pact"] =
      runStory [0] StoryState.default ["intro_pact"] :=
  c7_determinism [0] [0] StoryState.default StoryState.default
    ["intro_pact"] ["intro_pact"] rfl rfl rfl

set_option maxHeartbeats 1600000 in
/-- C10: for every state past the introduction (chapter ≥ 1), rendering a
scene mutates only `location`: the rendered state equals the input state
with just its location overwritten (name, chapter, every bounded
attribute, seed, inventory, flags and history unchanged). -/
theorem c10_render_frame :
    ∀ (st : StoryState) (r : Rng), 1 ≤ st.chapter →
      ((generate_scene r st).1).state =
        { st with location := ((generate_scene r st).1).state.location } := by
  intro st r h
  have hne : ¬ st.chapter = 0 := by omega
  rcases hrc : rngChoice r (archetypes st) with ⟨c, r2⟩
  simp only [generate_scene, if_neg hne, hrc]
  simp only [scene_oath_bond, scene_council, scene_training, scene_tense_camp,
    scene_spy_report, scene_ambush, scene_rescue, scene_grim_bargain, scene_ruins,
    scene_wild_hunt, scene_whispers,
    apply_ite (fun sc : SceneR => sc.state),
    apply_ite (fun s : StoryState => s.location),
    apply_ite (fun l : String => ({ st with location := l } : StoryState))]

/-- Witness for C10 at chapter 5 with a concrete stream. -/
theorem c10_render_frame_witness :
    ((generate_scene [0] { StoryState.default with chapter := 5 }).1).state =
      { { StoryState.default with chapter := 5 } with
          location :=
            ((generate_scene [0] { StoryState.default with chapter := 5 }).1).state.location } :=
  c10_render_frame { StoryState.default with chapter := 5 } [0] (by decide)

set_option maxHeartbeats 1600000 in
/-- C2 counterexample: from the default-constructed state with seed 42 at
chapter 0, rendering (which already sets chapter to 1) followed by
applying `intro_pact` leaves the chapter at 2, not 1 as the claim
states. -/
theorem c2_chapter_counterexample :
    ((apply_choice ((generate_scene [0] init42).1).state "intro_pact").1).chapter = 2 ∧
    ¬ ((apply_choice ((generate_scene [0] init42).1).state "intro_pact").1).chapter = 1 := by
  constructor
  · rfl
  · decide

set_option maxHeartbeats 1600000 in
/-- C2 amended: for the default-constructed state with seed 42 at chapter
0 and any pseudo-random stream, rendering returns the introductory scene
with exactly 4 choices, and then applying `intro_pact` yields
trust_demon_lord = 30 and the `allied` flag true — with chapter = 2
(render sets it to 1, the applied choice increments it again). -/
theorem c2_intro_pact_amended :
    ∀ r : Rng,
      ((generate_scene r init42).1).choices.length = 4 ∧
      ((apply_choice ((generate_scene r init42).1).state "intro_pact").1).trust_demon_lord = 30 ∧
      flagTrue ((apply_choice ((generate_scene r init42).1).state "intro_pact").1).flags
        "allied" = true ∧
      ((apply_choice ((generate_scene r init42).1).state "intro_pact").1).chapter = 2 := by
  intro r
  rcases hrc : rngChoice r demon_names with ⟨nm, r1⟩
  refine ⟨?_, ?_, ?_, ?_⟩ <;>
    simp [generate_scene, init42, StoryState.default, intro_scene, hrc,
      alistSetdefault, alistGet, alistSet, dlName, flagTrue, FlagVal.truthy,
      apply_choice, choice_dispatch, eff_intro_pact, clamp]

set_option maxHeartbeats 1600000 in
/-- C8: serialize-then-deserialize restores any state exactly, hence
serialize ∘ deserialize ∘ serialize = serialize. -/
theorem c8_serialize_roundtrip :
    ∀ st : StoryState,
      from_dict (to_dict st) = Except.ok st ∧
      (from_dict (to_dict st)).map to_dict = Except.ok (to_dict st) := by
  intro st
  have hfold : (to_dict StoryState.default).foldl
      (fun acc kv => alistSetdefault acc kv.1 kv.2) (to_dict st) = to_dict st := by
    simp [to_dict, StoryState.default, alistSetdefault, alistGet]
  have h : from_dict (to_dict st) = Except.ok st := by
    simp only [from_dict]
    rw [hfold]
    simp [to_dict, alistGet, alistSet, pyListStr, pyDictFlags,
      asStr, asInt, asListStr, asFlags, stateFields]
    rfl
  exact ⟨h, by rw [h]; rfl⟩

theorem ite_append_ite (c : Prop) [inst : Decidable c] (l x : List String) :
    (if c then l ++ x else l) = l ++ (if c then x else []) := by
  split_ifs <;> simp

theorem mem_ite_list (a : String) (c : Prop) [inst : Decidable c] (l l' : List String) :
    a ∈ (if c then l else l') ↔ (c ∧ a ∈ l) ∨ (¬ c ∧ a ∈ l') := by
  split_ifs with h <;> simp [h]

theorem archetypes_eq_spec (st : StoryState) :
    archetypes st = spec_eligible_table st := by
  unfold archetypes spec_eligible_table
  by_cases hmet : flagTrue st.flags "met_demon_lord" = true
  all_goals by_cases hco : 60 ≤ st.trust_demon_lord ∧ flagTrue st.flags "oath_bound" = false
  all_goals by_cases h30 : 30 ≤ st.trust_demon_lord
  all_goals try (exfalso; omega)
  all_goals simp only [ite_append_ite]
  all_goals first
  | simp [hmet, hco, h30, List.append_assoc,
      show ¬ st.trust_demon_lord < 30 by omega]
  | simp [hmet, hco, h30, List.append_assoc,
      show st.trust_demon_lord < 30 by omega]

/-- C6: for every state with chapter ≥ 1, the candidate archetype list
built by scene rendering (`archetypes`, the list `generate_scene` draws
from) is exactly the union given by the spec's eligibility table, always
contains the three exploration archetypes (hence is never empty), and in
particular with `met_demon_lord` true and trust 10 it includes
`tense_camp` and excludes `council` and `training`. -/
theorem c6_archetype_eligibility :
    ∀ st : StoryState, 1 ≤ st.chapter →
      (archetypes st = spec_eligible_table st ∧
        ∀ a : String, a ∈ archetypes st ↔ a ∈ spec_eligible_table st) ∧
      ("mystic_ruins" ∈ archetypes st ∧ "wild_hunt" ∈ archetypes st ∧
        "whispering_trees" ∈ archetypes st) ∧
      archetypes st ≠ [] ∧
      (flagTrue st.flags "met_demon_lord" = true → st.trust_demon_lord = 10 →
        "tense_camp" ∈ archetypes st ∧ "council" ∉ archetypes st ∧
        "training" ∉ archetypes st) := by
  intro st _h
  have he := archetypes_eq_spec st
  have hmem : "mystic_ruins" ∈ archetypes st ∧ "wild_hunt" ∈ archetypes st ∧
      "whispering_trees" ∈ archetypes st := by
    unfold archetypes
    exact ⟨List.mem_append_right _ (by decide), List.mem_append_right _ (by decide),
      List.mem_append_right _ (by decide)⟩
  refine ⟨⟨he, fun a => by rw [he]⟩, hmem, List.ne_nil_of_mem hmem.1, ?_⟩
  intro hmet ht
  refine ⟨?_, ?_, ?_⟩ <;> rw [he] <;>
    simp [spec_eligible_table, hmet, ht, mem_ite_list]

/-- Witness for C6 at a chapter-1 state with `met_demon_lord` set and the
default trust of 10. -/
theorem c6_archetype_eligibility_witness :
    "tense_camp" ∈ archetypes { StoryState.default with
        chapter := 1, flags := [("met_demon_lord", FlagVal.b true)] } ∧
    "council" ∉ archetypes { StoryState.default with
        chapter := 1, flags := [("met_demon_lord", FlagVal.b true)] } ∧
    "training" ∉ archetypes { StoryState.default with
        chapter := 1, flags := [("met_demon_lord", FlagVal.b true)] } :=
  (c6_archetype_eligibility _ (by decide)).2.2.2 (by decide) (by decide)

set_option maxHeartbeats 1600000 in
/-- C9 counterexample: deserializing a mapping holding a key that is not
a dataclass field fails with a `TypeError` (the constructor rejects
unexpected keyword arguments) — it is not tolerated as the claim
states. -/
theorem c9_extra_key_counterexample :
    from_dict [("bogus", JVal.i 0)] =
      Except.error "TypeError: unexpected keyword argument" := by
  rfl

theorem alistGet_append {α : Type} (d₁ d₂ : List (String × α)) (k : String) :
    alistGet (d₁ ++ d₂) k = (alistGet d₁ k).or (alistGet d₂ k) := by
  induction d₁ with
  | nil => simp [alistGet]
  | cons p rest ih => by_cases hp : p.1 = k <;> simp [alistGet, hp, ih]

theorem alistGet_setdefault {α : Type} (d : List (String × α)) (k k' : String) (v : α) :
    alistGet (alistSetdefault d k v) k' =
      if k' = k then some ((alistGet d k).getD v) else alistGet d k' := by
  unfold alistSetdefault
  rcases h : alistGet d k with _ | w
  · simp only [h, Option.isSome_none, Bool.false_eq_true, if_false]
    rw [alistGet_append]
    by_cases hk : k' = k
    · subst hk
      simp [alistGet, h]
    · have hk' : ¬ k = k' := fun hh => hk hh.symm
      simp [alistGet, hk, hk', h]
  · simp only [h, Option.isSome_some, if_true]
    by_cases hk : k' = k
    · subst hk
      simp [h]
    · simp [hk]

theorem alistGet_foldl_setdefault {α : Type} (defs : List (String × α)) (d : List (String × α))
    (k : String) :
    alistGet (defs.foldl (fun acc kv => alistSetdefault acc kv.1 kv.2) d) k
      = (alistGet d k).or (alistGet defs k) := by
  induction defs generalizing d with
  | nil =>
    rcases hg : alistGet d k with _ | w <;> simp [alistGet, hg, Option.or]
  | cons kv rest ih =>
    simp only [List.foldl_cons]
    rw [ih, alistGet_setdefault]
    by_cases hk : k = kv.1
    · subst hk
      rcases hg : alistGet d kv.1 with _ | w <;>
        simp [alistGet, hg, Option.or, Option.getD]
    · have hsym : ¬ kv.1 = k := fun hh => hk hh.symm
      rw [if_neg hk]
      simp [alistGet, hsym]

theorem alistGet_set {α : Type} (d : List (String × α)) (k k' : String) (v : α) :
    alistGet (alistSet d k v) k' = if k' = k then some v else alistGet d k' := by
  induction d with
  | nil =>
    by_cases hk : k' = k
    · subst hk
      simp [alistSet, alistGet]
    · have hk' : ¬ k = k' := fun hh => hk hh.symm
      simp [alistSet, alistGet, hk, hk']
  | cons p rest ih =>
    by_cases hp : p.1 = k
    · by_cases hk : k' = k
      · subst hk
        simp only [alistSet, if_pos hp]
        simp [alistGet]
      · have hk' : ¬ k = k' := fun hh => hk hh.symm
        have hp' : ¬ p.1 = k' := by rw [hp]; exact hk'
        rw [if_neg hk]
        simp only [alistSet, if_pos hp]
        simp [alistGet, hk', hp']
    · by_cases hk : k' = k
      · subst hk
        simp only [alistSet, if_neg hp]
        simp [alistGet, hp, ih]
      · simp only [alistSet, if_neg hp]
        simp [alistGet, hp, hk, ih]

theorem alistGet_mem {α : Type} (d : List (String × α)) (k : String) (v : α)
    (h : alistGet d k = some v) : (k, v) ∈ d := by
  induction d with
  | nil => simp [alistGet] at h
  | cons p rest ih =>
    rcases p with ⟨k0, v0⟩
    by_cases hp : k0 = k
    · subst hp
      simp [alistGet] at h
      subst h
      exact List.mem_cons_self _ _
    · simp only [alistGet] at h
      rw [if_neg hp] at h
      exact List.mem_cons_of_mem _ (ih h)

theorem mem_alistSet {α : Type} {p : String × α} {d : List (String × α)} {k : String} {v : α}
    (h : p ∈ alistSet d k v) : p = (k, v) ∨ p ∈ d := by
  induction d with
  | nil => simp [alistSet] at h; simp [h]
  | cons q rest ih =>
    by_cases hq : q.1 = k
    · rw [alistSet, if_pos hq] at h
      rcases List.mem_cons.mp h with h1 | h1
      · exact Or.inl h1
      · exact Or.inr (List.mem_cons_of_mem _ h1)
    · rw [alistSet, if_neg hq] at h
      rcases List.mem_cons.mp h with h1 | h1
      · exact Or.inr (h1 ▸ List.mem_cons_self _ _)
      · rcases ih h1 with h2 | h2
        · exact Or.inl h2
        · exact Or.inr (List.mem_cons_of_mem _ h2)

theorem mem_alistSetdefault {α : Type} {p : String × α} {d : List (String × α)} {k : String}
    {v : α} (h : p ∈ alistSetdefault d k v) : p = (k, v) ∨ p ∈ d := by
  unfold alistSetdefault at h
  split_ifs at h
  · exact Or.inr h
  · rcases List.mem_append.mp h with h1 | h1
    · exact Or.inr h1
    · exact Or.inl (by simpa using h1)

theorem mem_foldl_setdefault {α : Type} {p : String × α} (defs : List (String × α)) :
    ∀ d : List (String × α),
      p ∈ defs.foldl (fun acc kv => alistSetdefault acc kv.1 kv.2) d → p ∈ d ∨ p ∈ defs := by
  induction defs with
  | nil => intro d h; exact Or.inl h
  | cons kv rest ih =>
    intro d h
    rcases ih _ h with h1 | h1
    · rcases mem_alistSetdefault h1 with h2 | h2
      · exact Or.inr (h2 ▸ List.mem_cons_self _ _)
      · exact Or.inl h2
    · exact Or.inr (List.mem_cons_of_mem _ h1)

theorem typed_field_str (d : List (String × JVal)) (k : String) (dflt : String)
    (h : ∀ v, alistGet d k = some v → fieldTypeOk k v = true)
    (hshape : ∀ v : JVal, fieldTypeOk k v = true → ∃ t, v = JVal.s t) :
    ∃ m, (alistGet d k).or (some (JVal.s dflt)) = some (JVal.s m) ∧
      jStr (alistGet d k) dflt = m := by
  rcases hg : alistGet d k with _ | v
  · exact ⟨dflt, by simp [hg, Option.or], by simp [jStr, hg]⟩
  · obtain ⟨t, rfl⟩ := hshape v (h v hg)
    exact ⟨t, by simp [hg, Option.or], by simp [jStr, hg]⟩

theorem typed_field_int (d : List (String × JVal)) (k : String) (dflt : Int)
    (h : ∀ v, alistGet d k = some v → fieldTypeOk k v = true)
    (hshape : ∀ v : JVal, fieldTypeOk k v = true → ∃ n, v = JVal.i n) :
    ∃ m, (alistGet d k).or (some (JVal.i dflt)) = some (JVal.i m) ∧
      jInt (alistGet d k) dflt = m := by
  rcases hg : alistGet d k with _ | v
  · exact ⟨dflt, by simp [hg, Option.or], by simp [jInt, hg]⟩
  · obtain ⟨n, rfl⟩ := hshape v (h v hg)
    exact ⟨n, by simp [hg, Option.or], by simp [jInt, hg]⟩

theorem typed_field_list (d : List (String × JVal)) (k : String) (dflt : List String)
    (h : ∀ v, alistGet d k = some v → fieldTypeOk k v = true)
    (hshape : ∀ v : JVal, fieldTypeOk k v = true → ∃ l, v = JVal.ls l) :
    ∃ m, (alistGet d k).or (some (JVal.ls dflt)) = some (JVal.ls m) ∧
      jList (alistGet d k) dflt = m := by
  rcases hg : alistGet d k with _ | v
  · exact ⟨dflt, by simp [hg, Option.or], by simp [jList, hg]⟩
  · obtain ⟨l, rfl⟩ := hshape v (h v hg)
    exact ⟨l, by simp [hg, Option.or], by simp [jList, hg]⟩

theorem typed_field_flags (d : List (String × JVal)) (k : String)
    (dflt : List (String × FlagVal))
    (h : ∀ v, alistGet d k = some v → fieldTypeOk k v = true)
    (hshape : ∀ v : JVal, fieldTypeOk k v = true → ∃ f, v = JVal.fl f) :
    ∃ m, (alistGet d k).or (some (JVal.fl dflt)) = some (JVal.fl m) ∧
      jFlags (alistGet d k) dflt = m := by
  rcases hg : alistGet d k with _ | v
  · exact ⟨dflt, by simp [hg, Option.or], by simp [jFlags, hg]⟩
  · obtain ⟨f, rfl⟩ := hshape v (h v hg)
    exact ⟨f, by simp [hg, Option.or], by simp [jFlags, hg]⟩

theorem all_keys_fields (d : List (String × JVal)) (hkeys : ∀ p ∈ d, p.1 ∈ stateFields)
    (v1 v2 v3 : JVal) :
    (alistSet (alistSet (alistSet ((to_dict StoryState.default).foldl
        (fun acc kv => alistSetdefault acc kv.1 kv.2) d) "inventory" v1) "flags" v2)
        "history" v3).all (fun p => stateFields.contains p.1) = true := by
  rw [List.all_eq_true]
  intro p hp
  rcases mem_alistSet hp with rfl | hp1
  · dsimp only
    decide
  rcases mem_alistSet hp1 with rfl | hp2
  · dsimp only
    decide
  rcases mem_alistSet hp2 with rfl | hp3
  · dsimp only
    decide
  rcases mem_foldl_setdefault _ _ hp3 with h | h
  · have hm := hkeys p h
    simpa using hm
  · simp [to_dict, StoryState.default] at h
    rcases h with rfl | rfl | rfl | rfl | rfl | rfl | rfl | rfl | rfl | rfl | rfl | rfl | rfl <;>
      decide

theorem alistGet_defaults_name :
    alistGet (to_dict StoryState.default) "name" = some (JVal.s "Nameless") := rfl

theorem alistGet_defaults_chapter :
    alistGet (to_dict StoryState.default) "chapter" = some (JVal.i 0) := rfl

theorem alistGet_defaults_location :
    alistGet (to_dict StoryState.default) "location" = some (JVal.s "Demon Forest") := rfl

theorem alistGet_defaults_health :
    alistGet (to_dict StoryState.default) "health" = some (JVal.i 80) := rfl

theorem alistGet_defaults_power :
    alistGet (to_dict StoryState.default) "power" = some (JVal.i 20) := rfl

theorem alistGet_defaults_morality :
    alistGet (to_dict StoryState.default) "morality" = some (JVal.i 0) := rfl

theorem alistGet_defaults_notoriety :
    alistGet (to_dict StoryState.default) "notoriety" = some (JVal.i 0) := rfl

theorem alistGet_defaults_trust_demon_lord :
    alistGet (to_dict StoryState.default) "trust_demon_lord" = some (JVal.i 10) := rfl

theorem alistGet_defaults_bond_demon_lord :
    alistGet (to_dict StoryState.default) "bond_demon_lord" = some (JVal.i 0) := rfl

theorem alistGet_defaults_inventory :
    alistGet (to_dict StoryState.default) "inventory" = some (JVal.ls ["Torn Cloak", "Rusty Sword"]) := rfl

theorem alistGet_defaults_flags :
    alistGet (to_dict StoryState.default) "flags" = some (JVal.fl []) := rfl

theorem alistGet_defaults_history :
    alistGet (to_dict StoryState.default) "history" = some (JVal.ls []) := rfl

theorem alistGet_defaults_seed :
    alistGet (to_dict StoryState.default) "seed" = some (JVal.i 0) := rfl

theorem bind_ok_unfold {α β : Type} (a : α) (f : α → Except String β) :
    (Except.ok a >>= f) = f a := rfl

set_option maxHeartbeats 1600000 in
/-- C9 amended: for every input mapping whose keys are all fields of the
state record and whose stored values have the declared shapes,
deserialization succeeds and returns exactly the state described by the
spec — any absent field takes its default from a default-constructed
record, and the container fields are rebuilt; mappings holding a non-field
key are rejected with a `TypeError`, not tolerated. -/
theorem c9_from_dict_amended :
    ∀ d : List (String × JVal),
      (∀ p ∈ d, p.1 ∈ stateFields ∧ fieldTypeOk p.1 p.2 = true) →
      from_dict d = Except.ok (spec_from_dict d) := by
  intro d hT
  have hmemT : ∀ (k : String) (v : JVal), alistGet d k = some v → fieldTypeOk k v = true :=
    fun k v hv => (hT _ (alistGet_mem _ _ _ hv)).2
  have hkeys : ∀ p ∈ d, p.1 ∈ stateFields := fun p hp => (hT p hp).1
  obtain ⟨m1, ha1, hb1⟩ := typed_field_str d "name" "Nameless" (hmemT "name")
    (fun v hv => by rcases v with n | t | l | f
                    case s => exact ⟨t, rfl⟩
                    all_goals simp [fieldTypeOk, JVal.isI, JVal.isS, JVal.isLs, JVal.isFl] at hv)
  obtain ⟨m2, ha2, hb2⟩ := typed_field_int d "chapter" 0 (hmemT "chapter")
    (fun v hv => by rcases v with n | t | l | f
                    case i => exact ⟨n, rfl⟩
                    all_goals simp [fieldTypeOk, JVal.isI, JVal.isS, JVal.isLs, JVal.isFl] at hv)
  obtain ⟨m3, ha3, hb3⟩ := typed_field_str d "location" "Demon Forest" (hmemT "location")
    (fun v hv => by rcases v with n | t | l | f
                    case s => exact ⟨t, rfl⟩
                    all_goals simp [fieldTypeOk, JVal.isI, JVal.isS, JVal.isLs, JVal.isFl] at hv)
  obtain ⟨m4, ha4, hb4⟩ := typed_field_int d "health" 80 (hmemT "health")
    (fun v hv => by rcases v with n | t | l | f
                    case i => exact ⟨n, rfl⟩
                    all_goals simp [fieldTypeOk, JVal.isI, JVal.isS, JVal.isLs, JVal.isFl] at hv)
  obtain ⟨m5, ha5, hb5⟩ := typed_field_int d "power" 20 (hmemT "power")
    (fun v hv => by rcases v with n | t | l | f
                    case i => exact ⟨n, rfl⟩
                    all_goals simp [fieldTypeOk, JVal.isI, JVal.isS, JVal.isLs, JVal.isFl] at hv)
  obtain ⟨m6, ha6, hb6⟩ := typed_field_int d "morality" 0 (hmemT "morality")
    (fun v hv => by rcases v with n | t | l | f
                    case i => exact ⟨n, rfl⟩
                    all_goals simp [fieldTypeOk, JVal.isI, JVal.isS, JVal.isLs, JVal.isFl] at hv)
  obtain ⟨m7, ha7, hb7⟩ := typed_field_int d "notoriety" 0 (hmemT "notoriety")
    (fun v hv => by rcases v with n | t | l | f
                    case i => exact ⟨n, rfl⟩
                    all_goals simp [fieldTypeOk, JVal.isI, JVal.isS, JVal.isLs, JVal.isFl] at hv)
  obtain ⟨m8, ha8, hb8⟩ := typed_field_int d "trust_demon_lord" 10 (hmemT "trust_demon_lord")
    (fun v hv => by rcases v with n | t | l | f
                    case i => exact ⟨n, rfl⟩
                    all_goals simp [fieldTypeOk, JVal.isI, JVal.isS, JVal.isLs, JVal.isFl] at hv)
  obtain ⟨m9, ha9, hb9⟩ := typed_field_int d "bond_demon_lord" 0 (hmemT "bond_demon_lord")
    (fun v hv => by rcases v with n | t | l | f
                    case i => exact ⟨n, rfl⟩
                    all_goals simp [fieldTypeOk, JVal.isI, JVal.isS, JVal.isLs, JVal.isFl] at hv)
  obtain ⟨m10, ha10, hb10⟩ := typed_field_list d "inventory" ["Torn Cloak", "Rusty Sword"]
    (hmemT "inventory")
    (fun v hv => by rcases v with n | t | l | f
                    case ls => exact ⟨l, rfl⟩
                    all_goals simp [fieldTypeOk, JVal.isI, JVal.isS, JVal.isLs, JVal.isFl] at hv)
  obtain ⟨m11, ha11, hb11⟩ := typed_field_flags d "flags" [] (hmemT "flags")
    (fun v hv => by rcases v with n | t | l | f
                    case fl => exact ⟨f, rfl⟩
                    all_goals simp [fieldTypeOk, JVal.isI, JVal.isS, JVal.isLs, JVal.isFl] at hv)
  obtain ⟨m12, ha12, hb12⟩ := typed_field_list d "history" [] (hmemT "history")
    (fun v hv => by rcases v with n | t | l | f
                    case ls => exact ⟨l, rfl⟩
                    all_goals simp [fieldTypeOk, JVal.isI, JVal.isS, JVal.isLs, JVal.isFl] at hv)
  obtain ⟨m13, ha13, hb13⟩ := typed_field_int d "seed" 0 (hmemT "seed")
    (fun v hv => by rcases v with n | t | l | f
                    case i => exact ⟨n, rfl⟩
                    all_goals simp [fieldTypeOk, JVal.isI, JVal.isS, JVal.isLs, JVal.isFl] at hv)
  simp only [from_dict]
  simp only [alistGet_foldl_setdefault, alistGet_defaults_inventory,
    alistGet_defaults_flags, alistGet_defaults_history]
  simp only [ha10, ha11, ha12]
  simp only [Option.getD_some, pyListStr, pyDictFlags, bind_ok_unfold]
  simp only [all_keys_fields d hkeys]
  simp only [eq_self_iff_true, if_true]
  simp only [alistGet_set, String.reduceEq, reduceIte]
  simp only [alistGet_foldl_setdefault, alistGet_defaults_name, alistGet_defaults_chapter,
    alistGet_defaults_location, alistGet_defaults_health, alistGet_defaults_power,
    alistGet_defaults_morality, alistGet_defaults_notoriety, alistGet_defaults_trust_demon_lord,
    alistGet_defaults_bond_demon_lord, alistGet_defaults_seed]
  simp only [ha1, ha2, ha3, ha4, ha5, ha6, ha7, ha8, ha9, ha13]
  simp only [asStr, asInt, asListStr, asFlags, bind_ok_unfold]
  simp only [spec_from_dict, StoryState.default, hb1, hb2, hb3, hb4, hb5, hb6, hb7,
    hb8, hb9, hb10, hb11, hb12, hb13]
  rfl

/-- Witness for C9 (amended) on a mapping that provides only the health
field. -/
theorem c9_from_dict_amended_witness :
    from_dict [("health", JVal.i 55)] =
      Except.ok (spec_from_dict [("health", JVal.i 55)]) :=
  c9_from_dict_amended [("health", JVal.i 55)] (by decide)
